import Mathlib

/-!
Shallow embedding of the card-maker core (`src/core.js`) and proofs about its
configuration store, surface provisioning, rendering pipeline and export path.

Conventions of the embedding:
* JavaScript values that can appear in the per-instance configuration object are
  modelled by `JSVal`; the store itself is a total function from keys to values,
  with absent keys reading as `undefined`, matching JavaScript property access.
* Synchronous exceptions and promise rejections that abort a computation are
  modelled with `Except Err`; implicit JavaScript `TypeError`s (member access on
  `undefined`, calling a missing method) get the `Err.typeError` constructor,
  while each explicit `throw new Error(...)` site of the source has a dedicated
  constructor.
* Asynchronous scheduling (image loads awaited one at a time by the serialized
  `Promise.each`, zero-delay `setTimeout` draw callbacks, the microtask chain of
  `Promise.all(...).then`) is embedded as a FIFO timer queue, see `Sched`.
* The helpers imported from `./utils` (`makeElement`, `makeImage`, `isColor`,
  `colorNameToHex`) are not part of the provided sources; where their behaviour
  matters they are modelled from the specification and marked as such.
-/

namespace CardMakerModel

/-- Per-item style overrides of one text entry (`val.props` read by `writeText`,
core.js lines 378 to 390).  `none` models an absent field. -/
structure TextProps where
  x : Option Int
  y : Option Int
  size : Option Int
  family : Option String
  color : Option String
  align : Option String
deriving DecidableEq

/-- A text entry of the template (`template.text[k]`, core.js lines 329 to 338).
The value is a string, or `undefined` when absent. -/
structure TextItem where
  value : Option String
  props : TextProps
deriving DecidableEq

/-- Geometry overrides of one image layer (`image.props` read at core.js line 315).
`none` models an absent field; note that JavaScript `||` defaulting also treats an
explicit `0` as absent, see `jsOrInt`. -/
structure ImageProps where
  sx : Option Int
  sy : Option Int
  swidth : Option Int
  sheight : Option Int
  x : Option Int
  y : Option Int
  width : Option Int
  height : Option Int
deriving DecidableEq

/-- One image layer of the template (`template.images[i]`, core.js lines 304 to 322):
a source identifier and the geometry overrides. -/
structure ImageLayer where
  value : String
  props : ImageProps
deriving DecidableEq

/-- The template object: optional background (a string when present), optional list
of image layers, optional list of text items.  `none` models an absent field, so the
default `template: {}` of the constructor is `⟨none, none, none⟩`. -/
structure Template where
  background : Option String
  images : Option (List ImageLayer)
  text : Option (List TextItem)
deriving DecidableEq

/-- JavaScript values that can sit in the configuration store: `undefined`, `null`,
booleans, numbers, strings, a canvas element handle, and the template object. -/
inductive JSVal where
  | undefined
  | vnull
  | vbool (b : Bool)
  | vnum (n : Int)
  | vstr (s : String)
  | vcanvas (id : Nat)
  | vtemplate (t : Template)
deriving DecidableEq

/-- JavaScript truthiness of a value. -/
def jsTruthy : JSVal → Bool
  | .undefined => false
  | .vnull => false
  | .vbool b => b
  | .vnum n => n != 0
  | .vstr s => s != ""
  | .vcanvas _ => true
  | .vtemplate _ => true

/-- JavaScript falsiness, used by the short-circuit guard at core.js line 261. -/
def jsFalsy (v : JSVal) : Bool := !jsTruthy v

/-- JavaScript loose equality `v == undefined`: true exactly for `undefined` and
`null` (used at core.js lines 111, 117, 217). -/
def jsEqUndefined : JSVal → Bool
  | .undefined => true
  | .vnull => true
  | _ => false

/-- JavaScript loose inequality `v != undefined`. -/
def jsNeUndefined (v : JSVal) : Bool := !jsEqUndefined v

/-- JavaScript loose equality `v == ''` as used by the single-key `getConfig` guard
(core.js line 175).  Loose comparison with the empty string is true not only for
`''` itself but also for the number `0` (since `ToNumber('') = 0`) and for `false`;
it is false for `undefined`, `null` and object values. -/
def looseEqEmptyStr : JSVal → Bool
  | .vstr s => s == ""
  | .vnum n => n == 0
  | .vbool b => !b
  | _ => false

/-- The error outcomes of the embedded operations.  Explicit `throw new Error(...)`
sites of core.js get dedicated constructors; implicit JavaScript `TypeError`s are
`typeError`; the `Promise.each` rejection (line 18) is `nonArrayToEach`. -/
inductive Err where
  | configKeyUndefined (key : String)
  | cannotCreateCanvas
  | cannotFindElement
  | elementNotFound (selector : String)
  | missingBackgroundImage
  | missingBackgroundColor
  | nonArrayToEach
  | typeError (msg : String)
deriving DecidableEq

/-- The per-instance configuration object (kept in the `_config` WeakMap, core.js
line 26): a total map from property names to values, absent keys reading as
`undefined`. -/
abbrev Store := String → JSVal

/-- A single property write `config[key] = val` (core.js lines 358 and 364). -/
def setKey (s : Store) (k : String) (v : JSVal) : Store :=
  fun q => if q = k then v else s q

/-- The default configuration installed by the constructor (core.js lines 33 to 78):
left alignment, no background, no canvas, black text, empty download selector,
`#cardmaker` root, 400 by 250 surface, and an empty template object. -/
def defaultConfig : Store := fun k =>
  if k = "align" then .vstr "left"
  else if k = "background" then .undefined
  else if k = "canvas" then .undefined
  else if k = "color" then .vstr "black"
  else if k = "download" then .vstr ""
  else if k = "el" then .vstr "#cardmaker"
  else if k = "width" then .vnum 400
  else if k = "height" then .vnum 250
  else if k = "template" then .vtemplate ⟨none, none, none⟩
  else .undefined

/-- `getConfig(key)` with a single string key (core.js lines 174 to 177): throws
`Config with key ... undefined` when the stored value compares loosely equal to the
empty string, otherwise returns the stored value. -/
def getConfigKey (s : Store) (k : String) : Except Err JSVal :=
  if looseEqEmptyStr (s k) then .error (.configKeyUndefined k) else .ok (s k)

/-- `getConfig(keys)` with an array of keys (core.js lines 166 to 173): builds a
partial record of the requested keys; missing keys map to `undefined`; never throws. -/
def getConfigKeys (s : Store) (ks : List String) : List (String × JSVal) :=
  ks.map (fun k => (k, s k))

/-- `setConfig(key, value)` with a single key (core.js lines 363 to 367): stores the
value and returns `getConfig([key])`, the list form, which never throws. -/
def setConfig (s : Store) (k : String) (v : JSVal) : Store × List (String × JSVal) :=
  (setKey s k v, getConfigKeys (setKey s k v) [k])

/-- Merge a batch of key-value entries into the store in order (core.js lines 357
to 360); a later entry for the same key overwrites an earlier one. -/
def applyEntries (s : Store) (entries : List (String × JSVal)) : Store :=
  entries.foldl (fun acc kv => setKey acc kv.1 kv.2) s

/-- `setConfig(object)`, the batch form (core.js lines 353 to 362): merges all
entries and returns `getConfig(keys)` for the affected keys. -/
def setConfigBatch (s : Store) (entries : List (String × JSVal)) :
    Store × List (String × JSVal) :=
  (applyEntries s entries, getConfigKeys (applyEntries s entries) (entries.map Prod.fst))

/-- `makeCanvas(props)` (core.js lines 216 to 223): reads the stored canvas through
the single-key `getConfig`; if the value is loosely unequal to `undefined` it throws
`Cannot create canvas ...`; otherwise a fresh canvas element is created (the external
`makeElement` factory) and stored.  The fresh handle is modelled as `vcanvas 0`. -/
def makeCanvas (s : Store) : Except Err Store :=
  (getConfigKey s "canvas").bind (fun c =>
    if jsNeUndefined c then .error .cannotCreateCanvas
    else .ok (setKey s "canvas" (.vcanvas 0)))

/-- `putCanvas()` (core.js lines 232 to 248): creates the canvas first (line 236),
then resolves the configured root element (line 241).  The guard
`elem != null || elem != undefined` at line 243 is false exactly when the lookup
returned `null`, so a missing (or non-string, hence unresolvable) selector throws
`Cannot find ... element`. -/
def putCanvas (dom : String → Bool) (s : Store) : Except Err Store :=
  (makeCanvas s).bind (fun s2 =>
    match s "el" with
    | .vstr sel => if dom sel then .ok s2 else .error .cannotFindElement
    | _ => .error .cannotFindElement)

/-- `getContext()` (core.js lines 191 to 193): returns the 2d context when the
stored canvas is truthy, `undefined` (here `none`) otherwise.  The read goes through
the single-key `getConfig`, and calling `getContext` on a stored truthy non-canvas
value is a TypeError. -/
def getContextM (s : Store) : Except Err (Option Nat) :=
  (getConfigKey s "canvas").bind (fun c =>
    match c with
    | .vcanvas id => .ok (some id)
    | _ =>
      if jsTruthy c then .error (.typeError "getContext is not a function")
      else .ok none)

/-- The synchronous effect of `renderBackground` (core.js lines 277 to 297): either
an immediate full-surface color fill via `changeBackground('color', ...)`, recording
the fill color and the stored width and height values (lines 119 to 121), or the
start of an asynchronous `makeImage` load (line 285) whose eventual draw is not part
of the settled phase. -/
inductive BgAction where
  | fillColor (color : JSVal) (w h : JSVal)
  | loadImage (src : JSVal)
deriving DecidableEq

/-- `changeBackground('color', props)` (core.js lines 103 to 129): `ctx.beginPath()`
on a missing context is a TypeError (line 107); a `props.color` loosely equal to
`undefined` throws `Make sure you set the background color` (line 117); otherwise
the full `(0, 0, width, height)` rectangle is filled with the color. -/
def changeBackgroundColor (s : Store) (c : JSVal) : Except Err BgAction :=
  (getContextM s).bind (fun ctx =>
    match ctx with
    | none => .error (.typeError "beginPath of undefined")
    | some _ =>
      if jsEqUndefined c then .error .missingBackgroundColor
      else .ok (.fillColor c (s "width") (s "height")))

/-- Modelled from the spec: `isColor` is imported from `./utils`, which is not among
the provided sources.  Per section 6 the classifier decides whether a string denotes
a recognized color (named or hex) versus an image source; we model it as
hash-prefixed hex strings together with a few CSS color names. -/
def isColor (s : String) : Bool :=
  ["black", "white", "red", "green", "blue", "yellow"].contains s
    || s.data.take 1 == ['#']

/-- The classifier applied to a stored value: only strings can be colors. -/
def isColorV : JSVal → Bool
  | .vstr s => isColor s
  | _ => false

/-- Modelled from the spec: `colorNameToHex` from `./utils` (missing source); used
by the fallback of `renderBackground` (line 292), which per section 4.3 substitutes
the fixed default color black. -/
def colorNameToHex (s : String) : String :=
  if s = "black" then "#000000" else s

/-- The synchronous part of `renderBackground()` (core.js lines 277 to 297): the
single-key `getConfig('background')` can throw on sentinel values (line 278); a
recognized color is filled immediately; a value loosely unequal to `undefined`
(the `!= ''` half of line 284 is always true once `getConfig` returned) starts an
asynchronous image load; otherwise black is filled, with a console advisory that is
not modelled. -/
def renderBackgroundM (s : Store) : Except Err BgAction :=
  (getConfigKey s "background").bind (fun bg =>
    if isColorV bg then changeBackgroundColor s bg
    else if jsNeUndefined bg then .ok (.loadImage bg)
    else changeBackgroundColor s (.vstr (colorNameToHex "black")))

/-- The property read `template['images']` performed by `renderImage` (line 305):
a TypeError on `undefined` and `null`, the stored list on a template object, and
`undefined` (here `none`) on any other value. -/
def templateImages : JSVal → Except Err (Option (List ImageLayer))
  | .vtemplate t => .ok t.images
  | .undefined => .error (.typeError "cannot read images of undefined")
  | .vnull => .error (.typeError "cannot read images of null")
  | _ => .ok none

/-- The number of text draw callbacks `renderText` will enqueue (lines 329 to 338):
one per item of `template.text` when the list is present and non-empty; when the
list is absent or empty, `Promise.each` rejects before calling the callback and no
text is drawn. -/
def templateTextLen : JSVal → Nat
  | .vtemplate t => (t.text.getD []).length
  | _ => 0

/-- Step 1 of `render()` (core.js line 261): when the stored background is falsy,
the code reads `config['template']['background'].length`; if the template carries no
(string) background this is a TypeError; a non-empty string is copied into the
config; an empty string leaves the config unchanged.  A truthy background
short-circuits the whole check. -/
def step1 (s : Store) : Except Err Store :=
  if jsFalsy (s "background") then
    match s "template" with
    | .vtemplate t =>
      match t.background with
      | some b =>
        if b.length > 0 then .ok (setKey s "background" (.vstr b)) else .ok s
      | none => .error (.typeError "cannot read length of undefined")
    | _ => .error (.typeError "cannot read length of undefined")
  else .ok s

/-- A draw callback queued with `setTimeout(..., 0)`: either the deferred
`ctx.drawImage` for layer `i` (core.js line 314) or the deferred `writeText` for
text item `j` (line 333). -/
inductive DrawEv where
  | imgDraw (i : Nat)
  | txtDraw (j : Nat)
deriving DecidableEq

/-- State of the single-threaded event loop: the draw callbacks already executed,
and the FIFO queue of zero-delay timer callbacks not yet executed. -/
structure Sched where
  events : List DrawEv
  timers : List DrawEv

/-- Run the front timer callback, if any. -/
def fire1 : Sched → Sched
  | ⟨ev, []⟩ => ⟨ev, []⟩
  | ⟨ev, e :: rest⟩ => ⟨ev ++ [e], rest⟩

/-- Run up to `k` queued timer callbacks; timers may fire while an image load is in
flight, between the serialized steps of `Promise.each`. -/
def fireK : Nat → Sched → Sched
  | 0, s => s
  | k + 1, s => fireK k (fire1 s)

/-- One step of the serialized image phase (core.js lines 308 to 317):
`Promise.each` awaits the load of image `i`; while the load is in flight, `f i` of
the already queued zero-delay timers run; when the load resolves, the draw of layer
`i` is enqueued with `setTimeout(..., 0)`. -/
def stepImage (f : Nat → Nat) (s : Sched) (i : Nat) : Sched :=
  ⟨(fireK (f i) s).events, (fireK (f i) s).timers ++ [DrawEv.imgDraw i]⟩

/-- The complete draw-callback order of a resolving `render()` with `n` image layers
and `m` text items, for an arbitrary interleaving `f` of timer firing with image
loads: the image phase enqueues draws serially in layer order; once `Promise.all`
settles, `renderText` enqueues all text draws within the same microtask drain, so no
timer fires in between; finally the timer queue drains in FIFO order, matching the
in-order firing of equal-delay timers. -/
def renderTrace (n m : Nat) (f : Nat → Nat) : List DrawEv :=
  ((List.range n).foldl (stepImage f) ⟨[], []⟩).events
    ++ (((List.range n).foldl (stepImage f) ⟨[], []⟩).timers
        ++ (List.range m).map DrawEv.txtDraw)

/-- Observable outcome of one `render()` call that did not throw synchronously:
the synchronous background action, the ordered draw callbacks that eventually
execute (assuming the image loads succeed), and whether the promise returned by
`render()` resolved, i.e. whether `renderText` was invoked at all.  The guard
`!arr || !arr.length` of `Promise.each` (line 18) also fires on an empty array, so
the `empty case` branch at line 20 is unreachable: an absent or empty image list
rejects `Promise.all` (line 264) and `renderText` never runs. -/
structure RenderResult where
  bg : BgAction
  trace : List DrawEv
  resolved : Bool
deriving DecidableEq

/-- The part of `render()` after the background-copy step (core.js lines 263 to
267): `renderBackground()` runs synchronously, then `renderImage()` reads the
template and its image list; an absent or empty list rejects and no draw callback is
ever queued; a non-empty list yields the full trace of image draws followed by text
draws. -/
def renderAfterStep1 (s : Store) (f : Nat → Nat) : Except Err RenderResult :=
  (renderBackgroundM s).bind (fun bgAct =>
    (getConfigKey s "template").bind (fun tv =>
      (templateImages tv).bind (fun iopt =>
        match iopt with
        | none => .ok ⟨bgAct, [], false⟩
        | some [] => .ok ⟨bgAct, [], false⟩
        | some (i0 :: rest) =>
          .ok ⟨bgAct, renderTrace (i0 :: rest).length (templateTextLen tv) f, true⟩)))

/-- `render()` (core.js lines 257 to 268): step 1 may copy the template background
into the config (and may throw); the rest produces the render outcome.  The pair
also returns the store as left by step 1, the only store mutation `render` makes. -/
def renderRun (s0 : Store) (f : Nat → Nat) : Except Err (RenderResult × Store) :=
  (step1 s0).bind (fun s => (renderAfterStep1 s f).map (fun r => (r, s)))

/-- The render outcome alone. -/
def renderOut (s0 : Store) (f : Nat → Nat) : Except Err RenderResult :=
  (renderRun s0 f).map Prod.fst

/-- The read `download.length` followed by the `> 0` comparison (core.js line 140):
`.length` of `undefined` or `null` is a TypeError; a string compares its length; any
other value reads `undefined` for `.length`, and `undefined > 0` is false. -/
def jsLengthGtZero : JSVal → Except Err Bool
  | .undefined => .error (.typeError "cannot read length of undefined")
  | .vnull => .error (.typeError "cannot read length of null")
  | .vstr s => .ok (decide (0 < s.length))
  | _ => .ok false

/-- `enableDownload()` (core.js lines 136 to 152): reads the download selector
through the single-key `getConfig` (line 137), which throws on the empty-string
default; a non-empty selector that resolves to no element throws
`Element ... cant found in your DOM`; a resolvable selector binds the click handler
and succeeds. -/
def enableDownload (dom : String → Bool) (s : Store) : Except Err Unit :=
  (getConfigKey s "download").bind (fun d =>
    (jsLengthGtZero d).bind (fun b =>
      if b then
        match d with
        | .vstr sel => if dom sel then .ok () else .error (.elementNotFound sel)
        | _ => .ok ()
      else .ok ()))

/-- The encoded image payload produced by `canvas.toDataURL(mime, quality)`. -/
structure DataURL where
  canvasId : Nat
  mime : String
  quality : ℚ
deriving DecidableEq

/-- `getImage(format = 'jpeg', quality = 1.0)` (core.js lines 204 to 206): reads the
canvas through the single-key `getConfig` and calls `toDataURL` on it; when no
canvas is stored the value is `undefined` and the call is a TypeError. -/
def getImage (s : Store) (format : String) (quality : ℚ) : Except Err DataURL :=
  match getConfigKey s "canvas" with
  | .error e => .error e
  | .ok (.vcanvas id) => .ok ⟨id, "image/" ++ format, quality⟩
  | .ok _ => .error (.typeError "toDataURL of undefined or not a function")

/-- `getImage()` with both defaults applied (line 204): format `jpeg`, quality 1. -/
def getImageDefault (s : Store) : Except Err DataURL := getImage s "jpeg" 1

/-- JavaScript `a || b` for a numeric property read: an absent field (`undefined`)
and an explicit `0` are both falsy and fall back to the default. -/
def jsOrInt : Option Int → Int → Int
  | some n, d => if n = 0 then d else n
  | none, d => d

/-- The nine arguments of the `ctx.drawImage` call (source rectangle then
destination rectangle). -/
structure DrawArgs where
  sx : Int
  sy : Int
  swidth : Int
  sheight : Int
  dx : Int
  dy : Int
  dwidth : Int
  dheight : Int
deriving DecidableEq

/-- The `ctx.drawImage` call of the image compositor (core.js line 315), for a
loaded image of natural size `w` by `h`: every geometry field is read with `||`
defaulting. -/
def renderImageArgs (w h : Int) (p : ImageProps) : DrawArgs :=
  ⟨jsOrInt p.sx 0, jsOrInt p.sy 0, jsOrInt p.swidth w, jsOrInt p.sheight h,
   jsOrInt p.x 0, jsOrInt p.y 0, jsOrInt p.width w, jsOrInt p.height h⟩

/-- The draw rectangles as worded by the spec (section 4.4): each geometry field
defaults exactly when it is unspecified.  Stated only for comparison with
`renderImageArgs`. -/
def specDrawArgs (w h : Int) (p : ImageProps) : DrawArgs :=
  ⟨p.sx.getD 0, p.sy.getD 0, p.swidth.getD w, p.sheight.getD h,
   p.x.getD 0, p.y.getD 0, p.width.getD w, p.height.getD h⟩

/-- `new CardMaker(configs)` (core.js lines 30 to 92): install defaults, merge the
user options (batch `setConfig`, line 81), `putCanvas`, `render`, `enableDownload`,
in that order.  Only synchronous throws abort construction; promise rejections
inside `render` do not. -/
def constructorModel (dom : String → Bool) (f : Nat → Nat)
    (cfgs : List (String × JSVal)) : Except Err RenderResult :=
  (putCanvas dom (setConfigBatch defaultConfig cfgs).1).bind (fun s2 =>
    (renderRun s2 f).bind (fun rs =>
      (enableDownload dom rs.2).map (fun _ => rs.1)))

/-- Image props with every field absent. -/
def noneImageProps : ImageProps := ⟨none, none, none, none, none, none, none, none⟩

/-- Text props with every field absent. -/
def noneTextProps : TextProps := ⟨none, none, none, none, none, none⟩

/-- The template of the spec scenario: blue background, empty image list, one text
item `Hi` at `(10, 20)`. -/
def c1Template : Template :=
  ⟨some "blue", some [], some [⟨some "Hi", ⟨some 10, some 20, none, none, none, none⟩⟩]⟩

/-- A store as it stands when `render()` runs inside the constructor for the spec
scenario: defaults, the scenario template, and the canvas created by `putCanvas`. -/
def c1Store : Store :=
  setKey (setKey defaultConfig "template" (.vtemplate c1Template)) "canvas" (.vcanvas 0)

/-- A valid template with an empty image list and one text item. -/
def c2Template : Template := ⟨none, some [], some [⟨some "Hello", noneTextProps⟩]⟩

/-- A store with a set background color, a canvas, and `c2Template`. -/
def c2Store : Store :=
  setKey (setKey (setKey defaultConfig "template" (.vtemplate c2Template))
    "canvas" (.vcanvas 0)) "background" (.vstr "red")

/-- A template with one image layer and one text item. -/
def w2Template : Template :=
  ⟨none, some [⟨"layer.png", noneImageProps⟩], some [⟨some "Yo", noneTextProps⟩]⟩

/-- A store with a set background color, a canvas, and `w2Template`. -/
def w2Store : Store :=
  setKey (setKey (setKey defaultConfig "template" (.vtemplate w2Template))
    "canvas" (.vcanvas 0)) "background" (.vstr "green")

/-- The render outcome for `w2Store`: green fill, image draw then text draw. -/
def w2Result : RenderResult :=
  ⟨.fillColor (.vstr "green") (.vnum 400) (.vnum 250),
   [.imgDraw 0, .txtDraw 0], true⟩

/- ------------------------------------------------------------------ -/
/- Helper lemmas                                                       -/
/- ------------------------------------------------------------------ -/

theorem setKey_same (s : Store) (k : String) (v : JSVal) : setKey s k v k = v := by
  simp [setKey]

theorem setKey_other (s : Store) (k q : String) (v : JSVal) (h : q ≠ k) :
    setKey s k v q = s q := by
  simp [setKey, h]

theorem getConfigKey_of_sentinel (s : Store) (k : String)
    (h : looseEqEmptyStr (s k) = true) :
    getConfigKey s k = .error (.configKeyUndefined k) := by
  simp [getConfigKey, h]

theorem getConfigKey_of_ok (s : Store) (k : String)
    (h : looseEqEmptyStr (s k) = false) :
    getConfigKey s k = .ok (s k) := by
  simp [getConfigKey, h]

theorem makeCanvas_ok_eq (s s2 : Store) (h : makeCanvas s = .ok s2) :
    s2 = setKey s "canvas" (.vcanvas 0) := by
  unfold makeCanvas at h
  cases hg : getConfigKey s "canvas" with
  | error e => rw [hg] at h; simp [Except.bind] at h
  | ok c =>
    rw [hg] at h
    simp only [Except.bind] at h
    split at h
    · simp at h
    · injection h with h2
      exact h2.symm

theorem putCanvas_ok_eq (dom : String → Bool) (s s2 : Store)
    (h : putCanvas dom s = .ok s2) : s2 = setKey s "canvas" (.vcanvas 0) := by
  unfold putCanvas at h
  cases hm : makeCanvas s with
  | error e => rw [hm] at h; simp [Except.bind] at h
  | ok sc =>
    rw [hm] at h
    simp only [Except.bind] at h
    have hsc := makeCanvas_ok_eq s sc hm
    cases hel : s "el" with
    | vstr sel =>
      rw [hel] at h
      simp only [] at h
      split at h
      · injection h with h2
        rw [← h2]
        exact hsc
      · simp at h
    | undefined => rw [hel] at h; simp at h
    | vnull => rw [hel] at h; simp at h
    | vbool b => rw [hel] at h; simp at h
    | vnum n => rw [hel] at h; simp at h
    | vcanvas id => rw [hel] at h; simp at h
    | vtemplate t => rw [hel] at h; simp at h

theorem step1_ok_preserves (s s2 : Store) (k : String) (hk : k ≠ "background")
    (h : step1 s = .ok s2) : s2 k = s k := by
  unfold step1 at h
  split at h
  · split at h
    · split at h
      · split at h
        · injection h with h2
          rw [← h2, setKey_other _ _ _ _ hk]
        · injection h with h2
          rw [← h2]
      · simp at h
    · simp at h
  · injection h with h2
    rw [← h2]

theorem renderRun_ok_snd (s : Store) (f : Nat → Nat) (rs : RenderResult × Store)
    (h : renderRun s f = .ok rs) : ∃ s2, step1 s = .ok s2 ∧ rs.2 = s2 := by
  unfold renderRun at h
  cases hs : step1 s with
  | error e => rw [hs] at h; simp [Except.bind] at h
  | ok s2 =>
    rw [hs] at h
    simp only [Except.bind] at h
    cases ha : renderAfterStep1 s2 f with
    | error e => rw [ha] at h; simp [Except.map] at h
    | ok r =>
      rw [ha] at h
      simp only [Except.map] at h
      refine ⟨s2, rfl, ?_⟩
      injection h with h2
      rw [← h2]

theorem enableDownload_empty (dom : String → Bool) (s : Store)
    (h : s "download" = .vstr "") :
    enableDownload dom s = .error (.configKeyUndefined "download") := by
  have hg : getConfigKey s "download" = .error (.configKeyUndefined "download") := by
    apply getConfigKey_of_sentinel
    rw [h]
    rfl
  unfold enableDownload
  rw [hg]
  rfl

theorem fire1_flat (s : Sched) :
    (fire1 s).events ++ (fire1 s).timers = s.events ++ s.timers := by
  rcases s with ⟨ev, tm⟩
  cases tm with
  | nil => rfl
  | cons e rest => simp [fire1]

theorem fireK_flat (k : Nat) (s : Sched) :
    (fireK k s).events ++ (fireK k s).timers = s.events ++ s.timers := by
  induction k generalizing s with
  | zero => rfl
  | succ n ih =>
    calc (fireK (n + 1) s).events ++ (fireK (n + 1) s).timers
        = (fireK n (fire1 s)).events ++ (fireK n (fire1 s)).timers := rfl
      _ = (fire1 s).events ++ (fire1 s).timers := ih (fire1 s)
      _ = s.events ++ s.timers := fire1_flat s

theorem stepImage_flat (f : Nat → Nat) (s : Sched) (i : Nat) :
    (stepImage f s i).events ++ (stepImage f s i).timers
      = (s.events ++ s.timers) ++ [DrawEv.imgDraw i] := by
  show (fireK (f i) s).events ++ ((fireK (f i) s).timers ++ [DrawEv.imgDraw i]) = _
  rw [← List.append_assoc, fireK_flat]

theorem foldl_stepImage_flat (f : Nat → Nat) (l : List Nat) :
    ∀ s : Sched, ((l.foldl (stepImage f) s).events ++ (l.foldl (stepImage f) s).timers)
      = (s.events ++ s.timers) ++ l.map DrawEv.imgDraw := by
  induction l with
  | nil => intro s; simp
  | cons i rest ih =>
    intro s
    have h1 : (i :: rest).foldl (stepImage f) s
        = rest.foldl (stepImage f) (stepImage f s i) := rfl
    rw [h1, ih (stepImage f s i), stepImage_flat]
    simp

/-- The trace of a resolving render is the image draws in layer order followed by
the text draws in item order, regardless of how timer firing interleaves with the
serialized image loads. -/
theorem renderTrace_eq (n m : Nat) (f : Nat → Nat) :
    renderTrace n m f
      = (List.range n).map DrawEv.imgDraw ++ (List.range m).map DrawEv.txtDraw := by
  have h := foldl_stepImage_flat f (List.range n) ⟨[], []⟩
  simp only [List.nil_append] at h
  unfold renderTrace
  rw [← List.append_assoc, h]

theorem jsOrInt_ne_zero (o : Option Int) (d : Int) (h : o ≠ some 0) :
    jsOrInt o d = o.getD d := by
  cases o with
  | none => rfl
  | some n =>
    have hn : n ≠ 0 := fun hn => h (by rw [hn])
    simp [jsOrInt, hn]

theorem jsOrInt_zero_base (o : Option Int) : jsOrInt o 0 = o.getD 0 := by
  cases o with
  | none => rfl
  | some n =>
    by_cases hn : n = 0 <;> simp [jsOrInt, hn]

/- ------------------------------------------------------------------ -/
/- Claim theorems                                                      -/
/- ------------------------------------------------------------------ -/

/-- C1: evaluating `render()` on the spec scenario (blue template background, empty
image list, one `Hi` text item, 400 by 250 defaults, canvas present).  The surface
is indeed filled blue over the full 400 by 250 rectangle, but the trace is empty and
the render promise never resolves: `Promise.each([])` rejects (its `empty case`
branch is dead code), `Promise.all` rejects, and `renderText` never runs, so `Hi` is
never drawn — contrary to the claim that an empty image list does not prevent the
text phase. -/
theorem render_c1_scenario_eval :
    renderOut c1Store (fun _ => 0)
      = .ok ⟨.fillColor (.vstr "blue") (.vnum 400) (.vnum 250), [], false⟩ := by
  rfl

/-- C2 counterexample: a valid template (empty image list, one text item) on which
`render()` does not complete — the outcome has `resolved = false` and an empty
trace, so the text item is never drawn, refuting the claim as universally stated. -/
theorem render_empty_images_rejects :
    renderOut c2Store (fun _ => 0)
      = .ok ⟨.fillColor (.vstr "red") (.vnum 400) (.vnum 250), [], false⟩ := by
  rfl

/-- C2 (amended): for every template whose image list is present and non-empty, a
`render()` that did not throw synchronously resolves, and the draw callbacks execute
as all image draws in layer order followed by all text draws in item order — in
particular every image layer draw executes before any text draw, for every
interleaving of timer firing with the serialized image loads. -/
theorem render_images_before_text (s : Store) (f : Nat → Nat) (t : Template)
    (imgs : List ImageLayer) (r : RenderResult)
    (ht : s "template" = .vtemplate t) (hi : t.images = some imgs) (hne : imgs ≠ [])
    (hr : renderOut s f = .ok r) :
    r.resolved = true ∧
      r.trace = (List.range imgs.length).map DrawEv.imgDraw
        ++ (List.range ((t.text.getD []).length)).map DrawEv.txtDraw := by
  obtain ⟨i0, rest, hcons⟩ : ∃ i0 rest, imgs = i0 :: rest := by
    cases imgs with
    | nil => exact absurd rfl hne
    | cons a b => exact ⟨a, b, rfl⟩
  subst hcons
  unfold renderOut renderRun at hr
  cases hs : step1 s with
  | error e => rw [hs] at hr; simp [Except.bind, Except.map] at hr
  | ok s1 =>
    rw [hs] at hr
    simp only [Except.bind] at hr
    cases ha : renderAfterStep1 s1 f with
    | error e => rw [ha] at hr; simp [Except.map] at hr
    | ok rr =>
      rw [ha] at hr
      simp only [Except.map] at hr
      have hrr : rr = r := by
        injection hr
      subst hrr
      have ht1 : s1 "template" = .vtemplate t := by
        rw [step1_ok_preserves s s1 "template" (by decide) hs]
        exact ht
      have hgt : getConfigKey s1 "template" = .ok (.vtemplate t) := by
        have : looseEqEmptyStr (s1 "template") = false := by rw [ht1]; rfl
        rw [getConfigKey_of_ok s1 "template" this, ht1]
      have him : templateImages (.vtemplate t) = .ok (some (i0 :: rest)) := by
        simp [templateImages, hi]
      cases hb : renderBackgroundM s1 with
      | error e =>
        rw [renderAfterStep1, hb] at ha
        simp [Except.bind] at ha
      | ok bg =>
        have key : renderAfterStep1 s1 f
            = .ok ⟨bg, renderTrace (i0 :: rest).length (templateTextLen (.vtemplate t)) f,
                true⟩ := by
          simp only [renderAfterStep1, hb, hgt, him, Except.bind]
        rw [key] at ha
        injection ha with h2
        rw [← h2]
        refine ⟨rfl, ?_⟩
        show renderTrace (i0 :: rest).length (templateTextLen (.vtemplate t)) f = _
        rw [renderTrace_eq]
        rfl

/-- C2 witness: a one-image one-text template, evaluated concretely, renders with
the image draw strictly before the text draw. -/
theorem render_images_before_text_witness :
    w2Result.resolved = true ∧
      w2Result.trace
        = (List.range ([(⟨"layer.png", noneImageProps⟩ : ImageLayer)].length)).map
            DrawEv.imgDraw
          ++ (List.range ((w2Template.text.getD []).length)).map DrawEv.txtDraw :=
  render_images_before_text w2Store (fun _ => 0) w2Template
    [⟨"layer.png", noneImageProps⟩] w2Result (by decide) (by decide) (by decide)
    (by rfl)

/-- C3: with the download selector left at its empty-string default,
`enableDownload()` is not a no-op: the single-key `getConfig('download')` read hits
the loose `== ''` sentinel check first and throws the config-key error, before the
`download.length > 0` guard (whose comment says empty means not defined) can skip
the binding. -/
theorem enableDownload_default_eval :
    enableDownload (fun _ => false) defaultConfig
      = .error (.configKeyUndefined "download") := by
  rfl

/-- C4 counterexample: with an entirely default configuration (download left at the
empty string), construction throws — but with a TypeError raised inside `render()`
step 1 (reading `.length` of the absent template background), not with the
ConfigKeyError from `enableDownload`, which is never reached. -/
theorem constructor_default_counterexample :
    constructorModel (fun _ => true) (fun _ => 0) []
      = .error (.typeError "cannot read length of undefined") := by
  rfl

/-- C4 (amended): for every construction configuration whose merged `download` value
is the default empty string, `new CardMaker(config)` throws: either `putCanvas` or
`render()` throws first, or the constructor reaches `enableDownload()` whose
single-key `getConfig('download')` read raises the config-key error — so
construction never succeeds with the default download target. -/
theorem constructor_default_download_throws (dom : String → Bool) (f : Nat → Nat)
    (cfgs : List (String × JSVal))
    (h : applyEntries defaultConfig cfgs "download" = .vstr "") :
    ∃ e, constructorModel dom f cfgs = .error e := by
  unfold constructorModel
  cases hp : putCanvas dom (setConfigBatch defaultConfig cfgs).1 with
  | error e => exact ⟨e, rfl⟩
  | ok s2 =>
    simp only [Except.bind]
    cases hr : renderRun s2 f with
    | error e => exact ⟨e, rfl⟩
    | ok rs =>
      simp only [Except.bind]
      have hd : rs.2 "download" = .vstr "" := by
        obtain ⟨s1, hs1, hsnd⟩ := renderRun_ok_snd s2 f rs hr
        have h2 : s2 "download" = .vstr "" := by
          have hpe := putCanvas_ok_eq dom _ s2 hp
          rw [hpe, setKey_other _ _ _ _ (by decide)]
          exact h
        rw [hsnd, step1_ok_preserves s2 s1 "download" (by decide) hs1, h2]
      rw [enableDownload_empty dom rs.2 hd]
      exact ⟨.configKeyUndefined "download", rfl⟩

/-- C4 witness: a configuration that sets only a background color (so `render()`
survives its synchronous steps) and leaves `download` at the default still makes
construction throw. -/
theorem constructor_default_download_throws_witness :
    (applyEntries defaultConfig [("background", JSVal.vstr "blue")] "download"
      = .vstr "") ∧
    ∃ e, constructorModel (fun _ => true) (fun _ => 0)
      [("background", JSVal.vstr "blue")] = .error e :=
  ⟨by decide,
   constructor_default_download_throws (fun _ => true) (fun _ => 0)
     [("background", JSVal.vstr "blue")] (by decide)⟩

/-- C5: render step 1 evaluated on the constructor defaults (no config background,
template without a background field) throws a TypeError reading
`config['template']['background'].length` — the step can fail, contrary to the
claim that it never does. -/
theorem step1_default_template_eval :
    step1 defaultConfig = .error (.typeError "cannot read length of undefined") := by
  rfl

/-- C6 counterexample: a stored value of `0` — which is not the empty-string
sentinel — still makes the single-key `getConfig` throw, because the guard uses
loose equality (`0 == ''` is true in JavaScript). -/
theorem getConfig_zero_counterexample :
    getConfigKey (setKey defaultConfig "height" (.vnum 0)) "height"
        = .error (.configKeyUndefined "height")
      ∧ (JSVal.vnum 0 ≠ .vstr "") :=
  ⟨by rfl, by decide⟩

/-- C6 (amended): `getConfig(key)` with a single string key returns the stored
value, and fails with the config-key error exactly when the stored value compares
loosely equal to the empty string — that is, for `''`, the number `0`, and `false`;
for any other stored value, including one never set (`undefined`), no error is
raised. -/
theorem getConfig_sentinel (s : Store) (k : String) :
    (looseEqEmptyStr (s k) = true →
        getConfigKey s k = .error (.configKeyUndefined k)) ∧
    (looseEqEmptyStr (s k) = false → getConfigKey s k = .ok (s k)) ∧
    (looseEqEmptyStr (s k) = true ↔
        s k = .vstr "" ∨ s k = .vnum 0 ∨ s k = .vbool false) := by
  refine ⟨getConfigKey_of_sentinel s k, getConfigKey_of_ok s k, ?_⟩
  cases hv : s k <;> simp [looseEqEmptyStr]

/-- C6 witness: the default text color reads back fine, while a `false` stored under
a key trips the sentinel check. -/
theorem getConfig_sentinel_witness :
    getConfigKey defaultConfig "color" = .ok (defaultConfig "color") ∧
    getConfigKey (setKey defaultConfig "align" (.vbool false)) "align"
      = .error (.configKeyUndefined "align") :=
  ⟨(getConfig_sentinel defaultConfig "color").2.1 (by decide),
   (getConfig_sentinel (setKey defaultConfig "align" (.vbool false)) "align").1
     (by decide)⟩

/-- C7 counterexample: `setConfig('color', '')` stores the empty string and even
returns it among the post-update values, but the subsequent single-key
`getConfig('color')` throws instead of returning it — the round-trip fails for the
empty-string value. -/
theorem setConfig_empty_counterexample :
    (setConfig defaultConfig "color" (.vstr "")).2 = [("color", JSVal.vstr "")] ∧
    getConfigKey (setConfig defaultConfig "color" (.vstr "")).1 "color"
      = .error (.configKeyUndefined "color") :=
  ⟨by rfl, by rfl⟩

/-- C7 (amended): for every key and every value not loosely equal to the empty
string, `setConfig(key, value)` followed by `getConfig(key)` returns that value;
`setConfig` returns the post-update values for the affected keys, and a later set
for the same key overwrites the earlier one. -/
theorem setConfig_roundtrip (s : Store) (k : String) (v w : JSVal)
    (h : looseEqEmptyStr v = false) :
    getConfigKey (setConfig s k v).1 k = .ok v ∧
    (setConfig s k v).2 = [(k, v)] ∧
    (setConfig (setConfig s k v).1 k w).1 k = w := by
  refine ⟨?_, ?_, ?_⟩
  · have hv : (setConfig s k v).1 k = v := setKey_same s k v
    have : looseEqEmptyStr ((setConfig s k v).1 k) = false := by rw [hv, h]
    rw [getConfigKey_of_ok _ _ this, hv]
  · simp [setConfig, getConfigKeys, setKey_same]
  · exact setKey_same _ k w

/-- C7 witness: the spec example — `setConfig('color', 'red')` round-trips, returns
the post-update record, and is overwritten by a later `setConfig('color', 'green')`. -/
theorem setConfig_roundtrip_witness :
    getConfigKey (setConfig defaultConfig "color" (.vstr "red")).1 "color"
        = .ok (.vstr "red") ∧
    (setConfig defaultConfig "color" (.vstr "red")).2
        = [("color", JSVal.vstr "red")] ∧
    (setConfig (setConfig defaultConfig "color" (.vstr "red")).1 "color"
        (.vstr "green")).1 "color" = .vstr "green" :=
  setConfig_roundtrip defaultConfig "color" (.vstr "red") (.vstr "green") (by decide)

/-- C8: the surface handle is assigned at most once — on a store that already holds
a canvas, `makeCanvas` fails with the duplicate-canvas error (and, returning only an
error, leaves the store untouched); and whenever a `makeCanvas` call succeeds,
calling it again on the resulting store always fails the second time. -/
theorem makeCanvas_single_assignment (s t t2 : Store) (id : Nat)
    (h1 : s "canvas" = .vcanvas id) (h2 : makeCanvas t = .ok t2) :
    makeCanvas s = .error .cannotCreateCanvas ∧
    makeCanvas t2 = .error .cannotCreateCanvas := by
  have dup : ∀ u : Store, ∀ j : Nat, u "canvas" = .vcanvas j →
      makeCanvas u = .error .cannotCreateCanvas := by
    intro u j hu
    have hg : getConfigKey u "canvas" = .ok (.vcanvas j) := by
      have : looseEqEmptyStr (u "canvas") = false := by rw [hu]; rfl
      rw [getConfigKey_of_ok u "canvas" this, hu]
    unfold makeCanvas
    rw [hg]
    rfl
  refine ⟨dup s id h1, ?_⟩
  have ht2 := makeCanvas_ok_eq t t2 h2
  exact dup t2 0 (by rw [ht2, setKey_same])

/-- C8 witness: on the defaults the first `makeCanvas` succeeds and the second
always fails, and any store already holding a canvas fails immediately. -/
theorem makeCanvas_single_assignment_witness :
    makeCanvas (setKey defaultConfig "canvas" (.vcanvas 5))
        = .error .cannotCreateCanvas ∧
    makeCanvas (setKey defaultConfig "canvas" (.vcanvas 0))
        = .error .cannotCreateCanvas :=
  makeCanvas_single_assignment (setKey defaultConfig "canvas" (.vcanvas 5))
    defaultConfig (setKey defaultConfig "canvas" (.vcanvas 0)) 5 (by decide) (by rfl)

/-- C9: `getImage(format, quality)` fails when no surface exists (the stored canvas
is `undefined`, so the `toDataURL` call is the failure the spec names
NoSurfaceError), and otherwise returns the encoded payload
`image/<format>` at the requested quality; both defaults are `jpeg` and quality 1. -/
theorem getImage_spec (s t : Store) (fmt fmt2 : String) (q q2 : ℚ) (id : Nat)
    (h1 : s "canvas" = .undefined) (h2 : t "canvas" = .vcanvas id) :
    getImage s fmt q = .error (.typeError "toDataURL of undefined or not a function") ∧
    getImage t fmt2 q2 = .ok ⟨id, "image/" ++ fmt2, q2⟩ ∧
    getImageDefault t = getImage t "jpeg" 1 := by
  refine ⟨?_, ?_, rfl⟩
  · have hg : getConfigKey s "canvas" = .ok JSVal.undefined := by
      have : looseEqEmptyStr (s "canvas") = false := by rw [h1]; rfl
      rw [getConfigKey_of_ok s "canvas" this, h1]
    unfold getImage
    rw [hg]
  · have hg : getConfigKey t "canvas" = .ok (.vcanvas id) := by
      have : looseEqEmptyStr (t "canvas") = false := by rw [h2]; rfl
      rw [getConfigKey_of_ok t "canvas" this, h2]
    unfold getImage
    rw [hg]

/-- C9 witness: a fresh default store has no surface and `getImage` fails; with a
canvas stored, `getImage('png', 1)` returns the `image/png` payload and the
default call equals `getImage('jpeg', 1)`. -/
theorem getImage_spec_witness :
    getImage defaultConfig "png" (1 / 2)
        = .error (.typeError "toDataURL of undefined or not a function") ∧
    getImage (setKey defaultConfig "canvas" (.vcanvas 2)) "png" 1
        = .ok ⟨2, "image/" ++ "png", 1⟩ ∧
    getImageDefault (setKey defaultConfig "canvas" (.vcanvas 2))
        = getImage (setKey defaultConfig "canvas" (.vcanvas 2)) "jpeg" 1 :=
  getImage_spec defaultConfig (setKey defaultConfig "canvas" (.vcanvas 2))
    "png" "png" (1 / 2) 1 2 (by decide) (by decide)

/-- C10 counterexample: a layer whose `swidth` is explicitly `0` does not clip from
a zero-width source rectangle — the `||` default substitutes the natural image
width, so the code draw differs from the spec wording at this input. -/
theorem renderImage_zero_dim_counterexample :
    renderImageArgs 100 50 ⟨none, none, some 0, none, none, none, none, none⟩
      ≠ specDrawArgs 100 50 ⟨none, none, some 0, none, none, none, none, none⟩ := by
  decide

/-- C10 (amended): the draw clips from source rect `(sx, sy, swidth, sheight)` into
destination rect `(x, y, width, height)` with JavaScript `||` defaulting: positions
default to 0 when unspecified, and the four dimension fields default to the natural
image size both when unspecified and when given as `0`; for layers whose specified
dimensions are non-zero this coincides exactly with the spec rectangles. -/
theorem renderImage_rects (w hgt : Int) (p : ImageProps)
    (h1 : p.swidth ≠ some 0) (h2 : p.sheight ≠ some 0)
    (h3 : p.width ≠ some 0) (h4 : p.height ≠ some 0) :
    renderImageArgs w hgt p = specDrawArgs w hgt p := by
  unfold renderImageArgs specDrawArgs
  rw [jsOrInt_ne_zero _ _ h1, jsOrInt_ne_zero _ _ h2, jsOrInt_ne_zero _ _ h3,
    jsOrInt_ne_zero _ _ h4, jsOrInt_zero_base, jsOrInt_zero_base, jsOrInt_zero_base,
    jsOrInt_zero_base]

/-- C10 witness: a layer with no geometry overrides draws the whole source at the
natural size and origin, matching the spec rectangles. -/
theorem renderImage_rects_witness :
    renderImageArgs 7 9 noneImageProps = specDrawArgs 7 9 noneImageProps :=
  renderImage_rects 7 9 noneImageProps (by decide) (by decide) (by decide) (by decide)

end CardMakerModel
